import Mathlib

/-!
Verification of the object-matching / renumbering core of sam_2_xp12
(sources: sam_2_xp12.py and the earlier variant sam_2_native.py).

The Python source is shallowly embedded: coordinates, headings and lengths
are modelled as rationals (the float comparisons at every point examined
here are decisively away from the representation error, or exact);
the transcendental collaborators cos∘radians and sin∘radians are passed
as explicit function parameters (cosd, sind) where only their algebraic
role matters, and embedded as Real.cos / Real.sqrt where a concrete
trigonometric value is needed (distance symmetry).
-/

namespace SamToXp12

/-- deg_2_m = 60 * 1982.0, the flat-earth meters-per-degree-latitude scale
(sam_2_xp12.py line 40), as a rational. -/
def deg_2_mQ : ℚ := 60 * 1982

/-- Python math.fmod for rationals: remainder with the sign of the dividend
(truncated division), used by normalize_hdg. -/
def fmodQ (x y : ℚ) : ℚ :=
  x - y * (if 0 ≤ x / y then ((⌊x / y⌋ : ℤ) : ℚ) else ((⌈x / y⌉ : ℤ) : ℚ))

/-- normalize_hdg (sam_2_xp12.py lines 42-46): fmod by 360, add 360 if negative. -/
def normalize_hdg (hdg : ℚ) : ℚ :=
  let h := fmodQ hdg 360
  if h < 0 then h + 360 else h

/-- SAM_jw.__init__ tunnel-length classification (sam_2_xp12.py lines 91-99):
four sequential (non-elif) if-statements; a later assignment overwrites an
earlier one. -/
def lcode (length : ℚ) : ℤ :=
  let l0 : ℤ := -1
  let l1 : ℤ := if 11 ≤ length ∧ length ≤ 23 then 0 else l0
  let l2 : ℤ := if 14 ≤ length ∧ length ≤ 29 then 1 else l1
  let l3 : ℤ := if 17 ≤ length ∧ length ≤ 38 then 2 else l2
  if 20 ≤ length ∧ length ≤ 47 then 3 else l3

/-- C2 counterexample: cabinLength 20 qualifies for all four ranges, and the
sequential non-elif if-chain gives it code 3 (the last matching range), not the
claimed first (lowest) matching code 0. -/
theorem claim_C2_counterexample : lcode 20 = 3 ∧ lcode 20 ≠ 0 := by
  norm_num [lcode]

/-- C2 (amended): the lengthCode is computed against the four overlapping
inclusive ranges with the policy that the LAST matching range in declared
order 0,1,2,3 wins, yielding the effective partition 3 on [20,47],
2 on [17,20), 1 on [14,17), 0 on [11,14), -1 outside [11,47]; the inclusive
boundary examples 11 to 0, 10.9 to -1, 47 to 3, 47.1 to -1 hold, and a length
qualifying for several ranges (e.g. 20) receives the last (highest) code. -/
theorem claim_C2_theorem :
    (∀ l : ℚ,
      (lcode l = 3 ↔ 20 ≤ l ∧ l ≤ 47) ∧
      (lcode l = 2 ↔ 17 ≤ l ∧ l < 20) ∧
      (lcode l = 1 ↔ 14 ≤ l ∧ l < 17) ∧
      (lcode l = 0 ↔ 11 ≤ l ∧ l < 14) ∧
      (lcode l = -1 ↔ l < 11 ∨ 47 < l)) ∧
    lcode 11 = 0 ∧ lcode (109/10) = -1 ∧ lcode 47 = 3 ∧
    lcode (471/10) = -1 ∧ lcode 20 = 3 := by
  refine ⟨?_, by norm_num [lcode], by norm_num [lcode], by norm_num [lcode],
    by norm_num [lcode], by norm_num [lcode]⟩
  intro l
  simp only [lcode]
  split_ifs with h3 h2 h1 h0
  · obtain ⟨ha, hb⟩ := h3
    exact ⟨⟨fun _ => ⟨ha, hb⟩, fun _ => rfl⟩,
      ⟨fun hx => absurd hx (by decide), fun hx => by exfalso; linarith [hx.2]⟩,
      ⟨fun hx => absurd hx (by decide), fun hx => by exfalso; linarith [hx.2]⟩,
      ⟨fun hx => absurd hx (by decide), fun hx => by exfalso; linarith [hx.2]⟩,
      ⟨fun hx => absurd hx (by decide), fun hx => by
        rcases hx with hx | hx <;> exfalso <;> linarith⟩⟩
  · obtain ⟨ha, hb⟩ := h2
    have hl20 : l < 20 := by
      by_contra hx
      push_neg at hx
      exact h3 ⟨hx, by linarith⟩
    exact ⟨⟨fun hx => absurd hx (by decide), fun hx => by exfalso; linarith [hx.1]⟩,
      ⟨fun _ => ⟨ha, hl20⟩, fun _ => rfl⟩,
      ⟨fun hx => absurd hx (by decide), fun hx => by exfalso; linarith [hx.2]⟩,
      ⟨fun hx => absurd hx (by decide), fun hx => by exfalso; linarith [hx.2]⟩,
      ⟨fun hx => absurd hx (by decide), fun hx => by
        rcases hx with hx | hx <;> exfalso <;> linarith⟩⟩
  · obtain ⟨ha, hb⟩ := h1
    have hl17 : l < 17 := by
      by_contra hx
      push_neg at hx
      exact h2 ⟨hx, by linarith⟩
    exact ⟨⟨fun hx => absurd hx (by decide), fun hx => by exfalso; linarith [hx.1]⟩,
      ⟨fun hx => absurd hx (by decide), fun hx => by exfalso; linarith [hx.1]⟩,
      ⟨fun _ => ⟨ha, hl17⟩, fun _ => rfl⟩,
      ⟨fun hx => absurd hx (by decide), fun hx => by exfalso; linarith [hx.2]⟩,
      ⟨fun hx => absurd hx (by decide), fun hx => by
        rcases hx with hx | hx <;> exfalso <;> linarith⟩⟩
  · obtain ⟨ha, hb⟩ := h0
    have hl14 : l < 14 := by
      by_contra hx
      push_neg at hx
      exact h1 ⟨hx, by linarith⟩
    exact ⟨⟨fun hx => absurd hx (by decide), fun hx => by exfalso; linarith [hx.1]⟩,
      ⟨fun hx => absurd hx (by decide), fun hx => by exfalso; linarith [hx.1]⟩,
      ⟨fun hx => absurd hx (by decide), fun hx => by exfalso; linarith [hx.1]⟩,
      ⟨fun _ => ⟨ha, hl14⟩, fun _ => rfl⟩,
      ⟨fun hx => absurd hx (by decide), fun hx => by
        rcases hx with hx | hx <;> exfalso <;> linarith⟩⟩
  · refine ⟨⟨fun hx => absurd hx (by decide), fun hx => absurd hx h3⟩,
      ⟨fun hx => absurd hx (by decide),
        fun hx => absurd (⟨hx.1, by linarith [hx.2]⟩ : 17 ≤ l ∧ l ≤ 38) h2⟩,
      ⟨fun hx => absurd hx (by decide),
        fun hx => absurd (⟨hx.1, by linarith [hx.2]⟩ : 14 ≤ l ∧ l ≤ 29) h1⟩,
      ⟨fun hx => absurd hx (by decide),
        fun hx => absurd (⟨hx.1, by linarith [hx.2]⟩ : 11 ≤ l ∧ l ≤ 23) h0⟩,
      ⟨fun _ => ?_, fun _ => rfl⟩⟩
    by_contra hx
    push_neg at hx
    rcases le_or_lt 20 l with h20 | h20
    · exact h3 ⟨h20, hx.2⟩
    rcases le_or_lt 17 l with h17 | h17
    · exact h2 ⟨h17, by linarith⟩
    rcases le_or_lt 14 l with h14 | h14
    · exact h1 ⟨h14, by linarith⟩
    exact h0 ⟨hx.1, by linarith⟩

/-! ## Geodesic math (sam_2_xp12.py lines 40-65) -/

/-- deg_2_m = 60 * 1982.0 as a real, for the real-valued distance. -/
noncomputable def deg_2_m : ℝ := 60 * 1982

/-- math.radians: degrees to radians. -/
noncomputable def radians (d : ℝ) : ℝ := d * Real.pi / 180

/-- A position with both coordinates defined. ObjPos.distance has a sentinel
branch returning 1.0E10 when either latitude is the class-level None; every
record the scripts construct sets lat/lon in its constructor, so that branch
is dead and the distance is embedded on defined positions. -/
structure ObjPosC where
  lat : ℝ
  lon : ℝ

/-- ObjPos.distance (sam_2_xp12.py lines 59-65): flat-earth approximation,
with the longitude scale taken from cos of the FIRST argument's latitude. -/
noncomputable def distance (a b : ObjPosC) : ℝ :=
  Real.sqrt ((deg_2_m * (a.lat - b.lat))^2 +
             (deg_2_m * (a.lon - b.lon) * Real.cos (radians a.lat))^2)

/-- C8 counterexample: the positions (lat 0, lon 0) and (lat 90, lon 1).
distance a b scales the longitude difference by cos(0 degrees) = 1, while
distance b a scales it by cos(90 degrees) = 0; the results differ by roughly
740 meters, far beyond any floating tolerance. -/
theorem claim_C8_counterexample :
    distance ⟨0, 0⟩ ⟨90, 1⟩ ≠ distance ⟨90, 1⟩ ⟨0, 0⟩ := by
  simp only [distance, radians, deg_2_m]
  have e90 : (90:ℝ) * Real.pi / 180 = Real.pi / 2 := by ring
  have e0 : (0:ℝ) * Real.pi / 180 = 0 := by ring
  rw [e90, e0, Real.cos_pi_div_two, Real.cos_zero]
  intro heq
  have hlt : ((60*1982:ℝ) * (90 - 0))^2 + ((60*1982:ℝ) * (1 - 0) * 0)^2
      < ((60*1982:ℝ) * (0 - 90))^2 + ((60*1982:ℝ) * (0 - 1) * 1)^2 := by
    norm_num
  have hsq := Real.sqrt_lt_sqrt (by positivity) hlt
  rw [heq] at hsq
  exact lt_irrefl _ hsq

/-- C8 (amended): distance is symmetric whenever the two positions share a
latitude or share a longitude (then the asymmetric cos factor is irrelevant);
in general it is asymmetric because the longitude term is scaled by the cos of
the first argument's latitude only. -/
theorem claim_C8_theorem (a b : ObjPosC) (h : a.lat = b.lat ∨ a.lon = b.lon) :
    distance a b = distance b a := by
  rcases h with h | h <;> simp only [distance, h] <;>
    exact congrArg Real.sqrt (by ring)

/-- C8 witness: two positions on the equator, longitudes 0 and 1. -/
theorem claim_C8_witness :
    distance ⟨0, 0⟩ ⟨0, 1⟩ = distance ⟨0, 1⟩ ⟨0, 0⟩ :=
  claim_C8_theorem ⟨0, 0⟩ ⟨0, 1⟩ (Or.inl rfl)

/-! ## Tile record model and matcher (sam_2_xp12.py lines 126-297)

Coordinates are rationals; the collaborator cos(radians(.)) needed by the
distance test is an explicit parameter cosd. The proximity test
sqrt(s) < radius of the source is embedded as s < radius^2, justified by
Real.sqrt_lt' (for radius > 0 the two are equivalent; the script's radii are
the positive constants jw_match_radius = 0.5 and the dock threshold 1).
Mutable attributes (is_jetway, is_dock, sam_jw, obj_ref, n_jw, n_docks) are
kept in side tables keyed by list position, which the matcher updates. -/

/-- An OBJECT_DEF record: resource name plus the result of the plugin-marker
probe (ObjectDef.is_sam_jw, sam_2_xp12.py lines 197-208: reads the .OBJ file
once, caches, and reports whether it mentions sam/jetway/rotate1; the probe is
deterministic per resource, so it is embedded as a static field). -/
structure ObjectDefT where
  name : String
  sam_marker : Bool
deriving DecidableEq, Inhabited

/-- An OBJECT / OBJECT_MSL / OBJECT_AGL placement: index of the owning
OBJECT_DEF plus position and heading (ObjectRef.__init__, lines 152-178). -/
structure ObjectRefT where
  obj : Nat
  lat : ℚ
  lon : ℚ
  hdg : ℚ
deriving DecidableEq, Inhabited

/-- A usable SAM jetway definition (SAM_jw, lines 67-115). -/
structure SamJwT where
  name : String
  lat : ℚ
  lon : ℚ
  hdg : ℚ
  length : ℚ
  jw_hdg : ℚ
  cab_hdg : ℚ
deriving DecidableEq, Inhabited

/-- A SAM dock definition (SAM_dock, lines 117-124). -/
structure SamDockT where
  lat : ℚ
  lon : ℚ
deriving DecidableEq, Inhabited

/-- The immutable part of one parsed tile. -/
structure Tile where
  defs : List ObjectDefT
  refs : List ObjectRefT
deriving DecidableEq, Inhabited

/-- The mutable match bookkeeping of one tile: per-def is_jetway / is_dock
flags, per-ref sam_jw backlink (index into the jetway list) and is_dock flag,
per-jetway obj_ref link (index into the tile's refs), and the counters
Dsf.n_jw / Dsf.n_docks. -/
structure Marks where
  def_jw : List Bool
  def_dock : List Bool
  ref_link : List (Option Nat)
  ref_dock : List Bool
  jw_ref : List (Option Nat)
  n_jw : Nat
  n_docks : Nat
deriving DecidableEq, Inhabited

/-- The radicand of ObjPos.distance, over rational coordinates with the
collaborator cosd = cos of degrees. -/
def dist_sq (cosd : ℚ → ℚ) (lat1 lon1 lat2 lon2 : ℚ) : ℚ :=
  (deg_2_mQ * (lat1 - lat2))^2 + (deg_2_mQ * (lon1 - lon2) * cosd lat1)^2

/-- distance(p1, p2) < r, embedded on the squares (see section comment). -/
def dist_lt (cosd : ℚ → ℚ) (lat1 lon1 lat2 lon2 r : ℚ) : Bool :=
  decide (dist_sq cosd lat1 lon1 lat2 lon2 < r^2)

/-- Justification for the squared embedding of sqrt(s) < r. -/
lemma sqrt_lt_radius (s r : ℝ) (hr : 0 < r) : Real.sqrt s < r ↔ s < r^2 :=
  Real.sqrt_lt' hr

/-- Owning def index of the i-th object reference. -/
def objAt (t : Tile) (i : Nat) : Nat := (t.refs.getD i default).obj

/-- Plugin-marker probe result for the def owning the i-th reference. -/
def markerAt (t : Tile) (i : Nat) : Bool :=
  (t.defs.getD (objAt t i) default).sam_marker

/-- The spatial candidate collection of Dsf.filter_sam (lines 264-269): the
indices, in tile-file order, of all object references within jw_match_radius
of the SAM jetway definition. -/
def candidates (cosd : ℚ → ℚ) (radius : ℚ) (refs : List ObjectRefT)
    (jw : SamJwT) : List Nat :=
  (List.range refs.length).filter (fun i =>
    dist_lt cosd jw.lat jw.lon (refs.getD i default).lat
      (refs.getD i default).lon radius)

/-- Body of the fallback loop of Dsf.filter_sam (lines 285-290) for jetway
index j: the candidate gets the sam_jw backlink, jw.obj_ref is overwritten,
the counter is incremented — and line 289 flags is_jetway through the stale
loop variable `obj`, which Python left bound to the LAST candidate's def
after the probe loop ran to completion, not to the current candidate's own
def; `stale` is that constant def index. -/
def fallback_step (j stale : Nat) (m : Marks) (i : Nat) : Marks :=
  { m with ref_link := m.ref_link.set i (some j),
           jw_ref := m.jw_ref.set j (some i),
           def_jw := m.def_jw.set stale true,
           n_jw := m.n_jw + 1 }

/-- One iteration of the outer jetway loop of Dsf.filter_sam (lines 262-290),
for the jetway with index j in sam.jetways. The marker branch (lines 273-282)
takes the first candidate whose def probes positive, applies the match
effects to exactly that candidate, and stops (break); otherwise the fallback
loop runs over every candidate. -/
def process_jw (cosd : ℚ → ℚ) (radius : ℚ) (t : Tile) (j : Nat)
    (jw : SamJwT) (m : Marks) : Marks :=
  let cand := candidates cosd radius t.refs jw
  match cand.find? (fun i => markerAt t i) with
  | some i =>
      { m with ref_link := m.ref_link.set i (some j),
               jw_ref := m.jw_ref.set j (some i),
               def_jw := m.def_jw.set (objAt t i) true,
               n_jw := m.n_jw + 1 }
  | none =>
      cand.foldl (fallback_step j (objAt t (cand.getLastD 0))) m

/-- SAM.match_docks (lines 140-145): true when some dock definition is within
1 meter of the reference (distance is called on the dock, so the cos scale
uses the dock's latitude). -/
def match_docks (cosd : ℚ → ℚ) (docks : List SamDockT) (r : ObjectRefT) : Bool :=
  docks.any (fun d => dist_lt cosd d.lat d.lon r.lat r.lon 1)

/-- The jetway loop body as a fold step over the enumerated jetway list. -/
def jw_step (cosd : ℚ → ℚ) (radius : ℚ) (t : Tile)
    (m : Marks) (ji : Nat × SamJwT) : Marks :=
  process_jw cosd radius t ji.1 ji.2 m

/-- Body of the dock loop of Dsf.filter_sam (lines 293-297): flag the ref and
its owning def as dock and count. -/
def dock_step (cosd : ℚ → ℚ) (docks : List SamDockT) (t : Tile)
    (m : Marks) (ri : Nat × ObjectRefT) : Marks :=
  if match_docks cosd docks ri.2 then
    { m with ref_dock := m.ref_dock.set ri.1 true,
             def_dock := m.def_dock.set (objAt t ri.1) true,
             n_docks := m.n_docks + 1 }
  else m

/-- Dsf.filter_sam (lines 262-297): the jetway loop followed by the dock
loop. -/
def filter_sam (cosd : ℚ → ℚ) (radius : ℚ) (t : Tile) (jws : List SamJwT)
    (docks : List SamDockT) (m : Marks) : Marks :=
  let m1 := (jws.enum).foldl (jw_step cosd radius t) m
  (t.refs.enum).foldl (dock_step cosd docks t) m1

/-- Failing input for C1: one SAM jetway at (0,0); two object references at
the same coordinates owned by two DIFFERENT defs (indices 0 and 1), neither
def carrying the plugin marker. -/
def c1_tile : Tile :=
  ⟨[⟨"objects/gateA.obj", false⟩, ⟨"objects/gateB.obj", false⟩],
   [⟨0, 0, 0, 0⟩, ⟨1, 0, 0, 0⟩]⟩

/-- The single usable SAM jetway of the C1 failing input. -/
def c1_jw : SamJwT := ⟨"Gate 1", 0, 0, 0, 15, 90, 10⟩

/-- Fresh bookkeeping for the C1 failing input (all flags clear, no links). -/
def c1_marks0 : Marks :=
  ⟨[false, false], [false, false], [none, none], [false, false], [none], 0, 0⟩

/-- C1: evaluation of filter_sam at the failing input. Both candidates are
accepted (both refs receive the sam_jw backlink and the counter reaches 2),
but only the LAST candidate's owning def is flagged is_jetway — def 0 stays
unflagged (def_jw = [false, true]) although its reference was accepted,
because line 289 flags through the stale loop variable `obj`. The claim
requires every accepted match's owning def to be flagged. -/
theorem claim_C1_theorem :
    filter_sam (fun _ => 1) 1 c1_tile [c1_jw] [] c1_marks0 =
      ⟨[false, true], [false, false], [some 0, some 0], [false, false],
       [some 1], 2, 0⟩ := by
  have hcand : candidates (fun _ => 1) 1
      [⟨0, 0, 0, 0⟩, ⟨1, 0, 0, 0⟩] c1_jw = [0, 1] := by
    norm_num [candidates, dist_lt, dist_sq, c1_jw, deg_2_mQ,
      List.range_succ, List.filter]
  simp [filter_sam, jw_step, dock_step, process_jw, fallback_step, hcand,
    markerAt, objAt, c1_tile, c1_marks0, match_docks, List.enum_cons,
    List.find?]

/-- The unique match link a jetway definition ends up with: the first
plugin-marked candidate when one exists, otherwise the last spatial candidate
in tile-file order (jw.obj_ref is overwritten on every fallback iteration),
and no link when there is no candidate. -/
def chosen_ref (cosd : ℚ → ℚ) (radius : ℚ) (t : Tile) (jw : SamJwT) :
    Option Nat :=
  let cand := candidates cosd radius t.refs jw
  match cand.find? (fun i => markerAt t i) with
  | some i => some i
  | none => cand.getLast?

/-- The fallback loop overwrites jw.obj_ref once per candidate, so its net
effect on the link is: unchanged for an empty candidate list, otherwise set
to the last candidate. -/
lemma fallback_foldl_jw_ref (j stale : Nat) (cand : List Nat) :
    ∀ m : Marks,
    (cand.foldl (fallback_step j stale) m).jw_ref =
      match cand.getLast? with
      | none => m.jw_ref
      | some i => m.jw_ref.set j (some i) := by
  induction cand with
  | nil => intro m; rfl
  | cons a rest ih =>
    intro m
    rw [List.foldl_cons, ih]
    cases rest with
    | nil => rfl
    | cons b tl =>
      cases hlast : (b :: tl).getLast? with
      | none => simp at hlast
      | some k =>
        simp only [List.getLast?_cons_cons, hlast, fallback_step,
          List.set_set]

/-- Net effect of one jetway iteration on that jetway's link: exactly
chosen_ref (first plugin-marked candidate, else last candidate, else no
update). -/
lemma process_jw_jw_ref (cosd : ℚ → ℚ) (radius : ℚ) (t : Tile) (j : Nat)
    (jw : SamJwT) (m : Marks) :
    (process_jw cosd radius t j jw m).jw_ref =
      match chosen_ref cosd radius t jw with
      | none => m.jw_ref
      | some i => m.jw_ref.set j (some i) := by
  unfold process_jw chosen_ref
  cases hf : (candidates cosd radius t.refs jw).find? (fun i => markerAt t i) with
  | some i => simp only [hf]
  | none =>
    simp only [hf]
    rw [fallback_foldl_jw_ref]

/-- A jetway iteration changes no other jetway's link. -/
lemma process_jw_jw_ref_ne (cosd : ℚ → ℚ) (radius : ℚ) (t : Tile)
    (j : Nat) (jw : SamJwT) (m : Marks) (j' : Nat) (hne : j ≠ j') :
    (process_jw cosd radius t j jw m).jw_ref.getD j' none =
      m.jw_ref.getD j' none := by
  rw [process_jw_jw_ref]
  cases chosen_ref cosd radius t jw with
  | none => rfl
  | some i =>
    simp only [List.getD_eq_getElem?_getD, List.getElem?_set_ne hne]

/-- A jetway iteration preserves the length of the link table. -/
lemma process_jw_jw_ref_length (cosd : ℚ → ℚ) (radius : ℚ) (t : Tile)
    (j : Nat) (jw : SamJwT) (m : Marks) :
    (process_jw cosd radius t j jw m).jw_ref.length = m.jw_ref.length := by
  rw [process_jw_jw_ref]
  cases chosen_ref cosd radius t jw with
  | none => rfl
  | some i => simp

/-- The whole jetway fold leaves links below the enumeration start
untouched. -/
lemma jw_foldl_preserve (cosd : ℚ → ℚ) (radius : ℚ) (t : Tile)
    (l : List SamJwT) :
    ∀ (k : Nat) (m : Marks) (j : Nat), j < k →
    ((List.enumFrom k l).foldl (jw_step cosd radius t) m).jw_ref.getD j none
      = m.jw_ref.getD j none := by
  induction l with
  | nil => intro k m j _; rfl
  | cons a rest ih =>
    intro k m j hj
    rw [List.enumFrom_cons, List.foldl_cons]
    rw [ih (k + 1) _ j (by omega)]
    exact process_jw_jw_ref_ne cosd radius t k a m j (by omega)

/-- The jetway fold computes each enumerated jetway's final link pointwise. -/
lemma jw_foldl_jw_ref (cosd : ℚ → ℚ) (radius : ℚ) (t : Tile)
    (l : List SamJwT) :
    ∀ (k : Nat) (m : Marks) (j : Nat), k ≤ j → j < k + l.length →
    m.jw_ref.getD j none = none → j < m.jw_ref.length →
    ((List.enumFrom k l).foldl (jw_step cosd radius t) m).jw_ref.getD j none
      = chosen_ref cosd radius t (l.getD (j - k) default) := by
  induction l with
  | nil =>
    intro k m j h1 h2 _ _
    simp only [List.length_nil, Nat.add_zero] at h2
    exact absurd h1 (by omega)
  | cons a rest ih =>
    intro k m j h1 h2 hnone hlen
    rw [List.enumFrom_cons, List.foldl_cons]
    by_cases hjk : j = k
    · subst hjk
      rw [jw_foldl_preserve cosd radius t rest (j + 1) _ j (by omega)]
      show (process_jw cosd radius t j a m).jw_ref.getD j none = _
      rw [process_jw_jw_ref]
      cases hc : chosen_ref cosd radius t a with
      | none => simpa [Nat.sub_self, hc] using hnone
      | some i =>
        simp [Nat.sub_self, List.getD_eq_getElem?_getD,
          List.getElem?_set_self hlen, hc]
    · have hk1 : k + 1 ≤ j := by omega
      have hnone' : (jw_step cosd radius t m (k, a)).jw_ref.getD j none
          = none := by
        show (process_jw cosd radius t k a m).jw_ref.getD j none = none
        rw [process_jw_jw_ref_ne cosd radius t k a m j (by omega)]
        exact hnone
      have hlen' : j < (jw_step cosd radius t m (k, a)).jw_ref.length := by
        show j < (process_jw cosd radius t k a m).jw_ref.length
        rw [process_jw_jw_ref_length]
        exact hlen
      rw [ih (k + 1) _ j hk1 (by simp at h2; omega) hnone' hlen']
      have hsub : j - k = (j - (k + 1)) + 1 := by omega
      rw [hsub, List.getD_cons_succ]

/-- The dock loop never touches any jetway's link. -/
lemma dock_foldl_jw_ref (cosd : ℚ → ℚ) (docks : List SamDockT) (t : Tile)
    (l : List (Nat × ObjectRefT)) :
    ∀ m : Marks,
    (l.foldl (dock_step cosd docks t) m).jw_ref = m.jw_ref := by
  induction l with
  | nil => intro m; rfl
  | cons a rest ih =>
    intro m
    rw [List.foldl_cons, ih]
    unfold dock_step
    split <;> rfl

/-- C10: after filter_sam, each SAM jetway definition's obj_ref link holds at
most one tile object reference — the first plugin-marked candidate when one
exists, otherwise the last spatial candidate in tile-file order (and no link
at all without candidates). The Option-valued link is what the geometry
synthesizer and the airport-record injector later consume, one reference per
definition. -/
theorem claim_C10_theorem (cosd : ℚ → ℚ) (radius : ℚ) (t : Tile)
    (jws : List SamJwT) (docks : List SamDockT) (m : Marks)
    (hinit : m.jw_ref = List.replicate jws.length none)
    (j : Nat) (hj : j < jws.length) :
    (filter_sam cosd radius t jws docks m).jw_ref.getD j none =
      chosen_ref cosd radius t (jws.getD j default) := by
  unfold filter_sam
  rw [dock_foldl_jw_ref]
  have h := jw_foldl_jw_ref cosd radius t jws 0 m j (Nat.zero_le j)
    (by omega)
    (by rw [hinit]
        simp [List.getD_eq_getElem?_getD, List.getElem?_replicate, hj])
    (by rw [hinit]; simpa using hj)
  have e : jws.enum = List.enumFrom 0 jws := rfl
  rw [e]
  simpa using h

/-- C10 witness: a tile where the second of two spatial candidates is
plugin-marked; the link resolves to exactly that candidate. -/
theorem claim_C10_witness :
    (filter_sam (fun _ => 1) 1
      ⟨[⟨"objects/plain.obj", false⟩, ⟨"objects/samjw.obj", true⟩],
       [⟨0, 0, 0, 0⟩, ⟨1, 0, 0, 0⟩]⟩
      [⟨"Gate 2", 0, 0, 0, 15, 90, 10⟩] []
      ⟨[false, false], [false, false], [none, none], [false, false],
       [none], 0, 0⟩).jw_ref.getD 0 none =
    chosen_ref (fun _ => 1) 1
      ⟨[⟨"objects/plain.obj", false⟩, ⟨"objects/samjw.obj", true⟩],
       [⟨0, 0, 0, 0⟩, ⟨1, 0, 0, 0⟩]⟩
      ⟨"Gate 2", 0, 0, 0, 15, 90, 10⟩ :=
  claim_C10_theorem (fun _ => 1) 1
    ⟨[⟨"objects/plain.obj", false⟩, ⟨"objects/samjw.obj", true⟩],
     [⟨0, 0, 0, 0⟩, ⟨1, 0, 0, 0⟩]⟩
    [⟨"Gate 2", 0, 0, 0, 15, 90, 10⟩] []
    ⟨[false, false], [false, false], [none, none], [false, false],
     [none], 0, 0⟩ rfl 0 (by decide)

/-! ## Renumberer / eraser (sam_2_xp12.py lines 309-326) -/

/-- Python s.find(pat) >= 0: pat occurs as a contiguous substring of s. -/
def contains_sub (pat : List Char) : List Char → Bool
  | [] => pat.isEmpty
  | c :: rest => pat.isPrefixOf (c :: rest) || contains_sub pat rest

/-- A def record as seen by Dsf.remove_sam: resource name plus the mutable
is_jetway / is_dock flags previously set by the matcher. -/
structure RDef where
  name : String
  is_jetway : Bool
  is_dock : Bool
deriving DecidableEq, Inhabited

/-- The removal predicate of Dsf.remove_sam (lines 314-316): flagged as
jetway or dock, or — when the -remove_sam_lib_objects option is set — the
resource name mentions SAM_Library or SAM3_Library. -/
def remove_p (removeLib : Bool) (o : RDef) : Bool :=
  (o.is_jetway || o.is_dock) ||
    (removeLib &&
      (contains_sub ("SAM_Library".toList) o.name.toList ||
       contains_sub ("SAM3_Library".toList) o.name.toList))

/-- Dsf.remove_sam (lines 309-326): walk the defs in order, set id := -1 on
each removed def and assign compact ids 0,1,2,... to the survivors,
remembering whether anything was removed. Returns the positionally assigned
new ids (the net effect of the o.id mutations) and the changed flag; n is
the running new_id counter. -/
def renumber_ids (removeLib : Bool) : Nat → List RDef → List ℤ × Bool
  | _, [] => ([], false)
  | n, o :: rest =>
    if remove_p removeLib o then
      ((-1) :: (renumber_ids removeLib n rest).1, true)
    else
      ((n : ℤ) :: (renumber_ids removeLib (n + 1) rest).1,
       (renumber_ids removeLib (n + 1) rest).2)

/-- Dsf.remove_sam entry point: new_id starts at 0. -/
def remove_sam (removeLib : Bool) (defs : List RDef) : List ℤ × Bool :=
  renumber_ids removeLib 0 defs

lemma renumber_ids_length (removeLib : Bool) :
    ∀ (n : Nat) (defs : List RDef),
    (renumber_ids removeLib n defs).1.length = defs.length := by
  intro n defs
  induction defs generalizing n with
  | nil => rfl
  | cons o rest ih =>
    unfold renumber_ids
    split <;> simp [ih]

lemma renumber_ids_survivors (removeLib : Bool) :
    ∀ (defs : List RDef) (n : Nat),
    (renumber_ids removeLib n defs).1.filter (fun i => i != -1) =
      (List.range' n (defs.countP (fun o => ! remove_p removeLib o))).map
        Int.ofNat := by
  intro defs
  induction defs with
  | nil => intro n; rfl
  | cons o rest ih =>
    intro n
    unfold renumber_ids
    by_cases hrem : remove_p removeLib o
    · rw [if_pos hrem]
      have hfalse : (((-1 : ℤ) != -1) = false) := by rfl
      simp only [List.filter_cons, hfalse, Bool.false_eq_true, if_false]
      rw [List.countP_cons_of_neg _ _ (by simp [hrem])]
      exact ih n
    · rw [if_neg hrem]
      have hne : ((n : ℤ) ≠ -1) := by omega
      rw [List.countP_cons_of_pos _ _ (by simp [hrem])]
      rw [List.range'_succ, List.map_cons, List.filter_cons,
        if_pos (bne_iff_ne.mpr hne), ih (n + 1), Int.ofNat_eq_natCast]

lemma renumber_ids_getD (removeLib : Bool) :
    ∀ (defs : List RDef) (n k : Nat),
    ((renumber_ids removeLib n defs).1.getD k 0 = -1) ↔
      (remove_p removeLib (defs.getD k default) = true ∧ k < defs.length) := by
  intro defs
  induction defs with
  | nil =>
    intro n k
    simp [renumber_ids]
  | cons o rest ih =>
    intro n k
    unfold renumber_ids
    by_cases hrem : remove_p removeLib o
    · rw [if_pos hrem]
      cases k with
      | zero => simp [hrem]
      | succ k' => simpa using ih n k'
    · rw [if_neg hrem]
      cases k with
      | zero =>
        simp only [List.getD_cons_zero]
        constructor
        · intro h; omega
        · intro h
          exact absurd h.1 (by simp [hrem])
      | succ k' => simpa using ih (n + 1) k'

/-- C3: after remove_sam, the surviving ids are exactly 0..k-1 where k is the
survivor count, assigned contiguously in original order (the filtered id list
IS [0, 1, ..., k-1]); the id list is positionally aligned with the input; and
an entry carries the deleted sentinel -1 exactly when its def was removed. -/
theorem claim_C3_theorem (removeLib : Bool) (defs : List RDef) :
    ((remove_sam removeLib defs).1.filter (fun i => i != -1) =
      (List.range (defs.countP (fun o => ! remove_p removeLib o))).map
        Int.ofNat) ∧
    (remove_sam removeLib defs).1.length = defs.length ∧
    (∀ k : Nat, ((remove_sam removeLib defs).1.getD k 0 = -1) ↔
      (remove_p removeLib (defs.getD k default) = true ∧ k < defs.length)) := by
  refine ⟨?_, renumber_ids_length removeLib 0 defs,
    fun k => renumber_ids_getD removeLib defs 0 k⟩
  rw [remove_sam, renumber_ids_survivors removeLib defs 0, List.range_eq_range']

/-- C4 counterexample: a def list whose single def has BOTH flags clear (no
jetway, no dock) but whose name mentions SAM_Library; with the
-remove_sam_lib_objects option set, remove_sam still removes it and returns
changed = true, so the tile IS rewritten despite zero jetway/dock flags. -/
theorem claim_C4_counterexample :
    remove_sam true [⟨"custom/SAM_Library/gate.obj", false, false⟩] =
      ([-1], true) := by
  rfl

/-! ## Geometry synthesizer (sam_2_xp12.py lines 328-352) -/

/-- pos_plus_vec (lines 49-52) over rationals, with the trigonometric
collaborators cosd, sind = cosine / sine of an angle given in degrees. -/
def pos_plus_vec (cosd sind : ℚ → ℚ) (lat lon dist hdg : ℚ) : ℚ × ℚ :=
  (lat + dist / deg_2_mQ * cosd hdg,
   lon + dist / (deg_2_mQ * cosd lat) * sind hdg)

/-- The four jetway facade resources (jw_resource, line 35). -/
def jw_resource : List String :=
  ["Jetway_1_solid.fac", "Jetway_1_glass.fac", "Jetway_2_solid.fac",
   "Jetway_2_glass.fac"]

/-- One dsf text line appended by add_rotundas, as structured data (the
fixed-precision float rendering of the source strings is out of scope).
beginPolygon carries the jetway name because the source appends the comment
and the BEGIN_POLYGON statement as one element (line 347). -/
inductive DsfLine where
  | polygonDef (res : String)
  | beginPolygon (name : String) (facadeId a b : Nat)
  | beginWinding
  | polygonPoint (lon lat z : ℚ)
  | endWinding
  | endPolygon
deriving DecidableEq, Inhabited

/-- A SAM jetway as consumed by Dsf.add_rotundas: name, its own position and
heading, and the optional matched object reference (obj_ref). -/
structure RotJw where
  name : String
  lat : ℚ
  lon : ℚ
  hdg : ℚ
  obj_ref : Option ObjectRefT
deriving DecidableEq, Inhabited

/-- The per-jetway body of Dsf.add_rotundas (lines 331-352), folding over
(dsf_lines, warnings): an unmatched definition yields only a warning (line
333); a matched one emits the comment+BEGIN_POLYGON element, BEGIN_WINDING,
first the point projected from the matched reference's position with
distance MINUS jw_rotunda_length along the matched reference's heading
(line 345), then the matched reference's own position, END_WINDING and
END_POLYGON. (The `if jw.obj_ref:` else-branch of lines 340-343 is dead
code: the None case was already skipped by the continue at line 334.) -/
def rotunda_step (cosd sind : ℚ → ℚ) (rot_len : ℚ) (facade_id : Nat)
    (acc : List DsfLine × List String) (jw : RotJw) :
    List DsfLine × List String :=
  match jw.obj_ref with
  | none => (acc.1, acc.2 ++ [jw.name])
  | some r =>
    let p := pos_plus_vec cosd sind r.lat r.lon (-rot_len) r.hdg
    (acc.1 ++ [DsfLine.beginPolygon jw.name facade_id 5 3,
               DsfLine.beginWinding,
               DsfLine.polygonPoint p.2 p.1 0,
               DsfLine.polygonPoint r.lon r.lat 0,
               DsfLine.endWinding, DsfLine.endPolygon], acc.2)

/-- Dsf.add_rotundas (lines 328-352): append the POLYGON_DEF for the selected
jetway style, then one two-point polygon block per matched SAM jetway, with a
non-fatal warning per unmatched one. Returns (dsf_lines, warnings, jetways);
the jetway list is returned unchanged because the sam_2_xp12 variant never
writes to any jw field here (only the sam_2_native variant mutates
jw.lat/jw.lon in its add_rotundas). -/
def add_rotundas (cosd sind : ℚ → ℚ) (jw_type : Nat) (rot_len : ℚ)
    (facade_id : Nat) (lines : List DsfLine) (jws : List RotJw) :
    List DsfLine × List String × List RotJw :=
  let lines1 := lines ++
    [DsfLine.polygonDef ("lib/airport/Ramp_Equipment/Jetways/" ++
      jw_resource.getD jw_type "")]
  let r := jws.foldl (rotunda_step cosd sind rot_len facade_id) (lines1, [])
  (r.1, r.2, jws)

/-- C5 counterexample: one matched jetway whose reference sits at (0,0) with
heading 0, rotunda length 1. The FIRST emitted point is the projected point
(latitude -1/deg_2_m, displaced by MINUS the rotunda length along the
reference heading) and the SECOND is the reference position (0,0) — while the
claim requires the first point to be the reference position and the second to
be the position displaced by PLUS rotundaLength; and the jetway's stored
position (5,6) is left unmodified, not overwritten with the projected
point. -/
theorem claim_C5_counterexample :
    add_rotundas (fun _ => 1) (fun _ => 0) 2 1 0 []
      [⟨"Gate 5", 5, 6, 30, some ⟨0, 0, 0, 0⟩⟩] =
      ([DsfLine.polygonDef ("lib/airport/Ramp_Equipment/Jetways/Jetway_2_solid.fac"),
        DsfLine.beginPolygon ("Gate 5") 0 5 3, DsfLine.beginWinding,
        DsfLine.polygonPoint 0 (-1 / deg_2_mQ) 0,
        DsfLine.polygonPoint 0 0 0,
        DsfLine.endWinding, DsfLine.endPolygon], [],
       [⟨"Gate 5", 5, 6, 30, some ⟨0, 0, 0, 0⟩⟩]) ∧
    (-1 / deg_2_mQ : ℚ) ≠ 0 ∧ (-1 / deg_2_mQ : ℚ) ≠ 1 / deg_2_mQ := by
  refine ⟨?_, by norm_num [deg_2_mQ], by norm_num [deg_2_mQ]⟩
  norm_num [add_rotundas, rotunda_step, pos_plus_vec, jw_resource, deg_2_mQ]
  rfl

/-- The polygon block a single jetway contributes, in normal form. -/
def rotunda_block (cosd sind : ℚ → ℚ) (rot_len : ℚ) (facade_id : Nat)
    (jw : RotJw) : List DsfLine :=
  match jw.obj_ref with
  | none => []
  | some r =>
    let p := pos_plus_vec cosd sind r.lat r.lon (-rot_len) r.hdg
    [DsfLine.beginPolygon jw.name facade_id 5 3, DsfLine.beginWinding,
     DsfLine.polygonPoint p.2 p.1 0, DsfLine.polygonPoint r.lon r.lat 0,
     DsfLine.endWinding, DsfLine.endPolygon]

lemma rotunda_foldl (cosd sind : ℚ → ℚ) (rot_len : ℚ) (facade_id : Nat)
    (jws : List RotJw) :
    ∀ acc : List DsfLine × List String,
    jws.foldl (rotunda_step cosd sind rot_len facade_id) acc =
      (acc.1 ++ jws.flatMap (rotunda_block cosd sind rot_len facade_id),
       acc.2 ++ (jws.filter (fun jw => jw.obj_ref.isNone)).map
         (fun jw => jw.name)) := by
  induction jws with
  | nil => intro acc; simp
  | cons jw rest ih =>
    intro acc
    rw [List.foldl_cons, ih]
    cases h : jw.obj_ref with
    | none => simp [rotunda_step, rotunda_block, h]
    | some r => simp [rotunda_step, rotunda_block, h]

/-- C5 (amended): for every matched jetway, add_rotundas emits a 2-point
polygon whose SECOND point is the matched reference's position and whose
FIRST point is that position displaced via pos_plus_vec by MINUS rotundaLength
along the matched reference's heading (the reference's heading, not the SAM
definition's own); the SAM definition's stored position is left unchanged;
every unmatched definition is skipped with a non-fatal warning and
contributes no lines. -/
theorem claim_C5_theorem (cosd sind : ℚ → ℚ) (jw_type : Nat) (rot_len : ℚ)
    (facade_id : Nat) (lines : List DsfLine) (jws : List RotJw) :
    add_rotundas cosd sind jw_type rot_len facade_id lines jws =
      (lines ++
        [DsfLine.polygonDef ("lib/airport/Ramp_Equipment/Jetways/" ++
          jw_resource.getD jw_type "")] ++
        jws.flatMap (rotunda_block cosd sind rot_len facade_id),
       (jws.filter (fun jw => jw.obj_ref.isNone)).map (fun jw => jw.name),
       jws) := by
  unfold add_rotundas
  dsimp only
  rw [rotunda_foldl]
  simp

/-! ## The main pipeline tails (sam_2_xp12.py lines 504-526,
sam_2_native.py lines 426-448) -/

lemma renumber_ids_changed (removeLib : Bool) :
    ∀ (defs : List RDef) (n : Nat),
    (renumber_ids removeLib n defs).2 = defs.any (remove_p removeLib) := by
  intro defs
  induction defs with
  | nil => intro n; rfl
  | cons o rest ih =>
    intro n
    unfold renumber_ids
    by_cases hrem : remove_p removeLib o
    · rw [if_pos hrem]
      simp [hrem]
    · rw [if_neg hrem]
      have h0 : remove_p removeLib o = false := by
        cases h : remove_p removeLib o
        · rfl
        · exact absurd h hrem
      simp [List.any_cons, h0, ih (n + 1)]

/-- The per-tile step of main (sam_2_xp12.py lines 507-513): only when
remove_sam reports a change are the rotundas added and the tile rewritten
(returning the renumbered ids and new dsf lines); otherwise nothing is
written for this tile at all. -/
def main_tile_step (removeLib : Bool) (cosd sind : ℚ → ℚ) (jw_type : Nat)
    (rot_len : ℚ) (facade_id : Nat) (defs : List RDef) (lines : List DsfLine)
    (jws : List RotJw) : Option (List ℤ × List DsfLine) :=
  if (remove_sam removeLib defs).2 then
    some ((remove_sam removeLib defs).1,
          (add_rotundas cosd sind jw_type rot_len facade_id lines jws).1)
  else none

/-- C4 (amended): remove_sam returns changed exactly when some definition is
removed — a def flagged jetway or dock or, when -remove_sam_lib_objects is
set, a def whose name mentions a SAM*-library (so a tile with zero
jetway/dock flags can still report changed under that option); and the
caller rewrites the tile exactly when changed is true, leaving the tile
untouched (no output at all) otherwise. -/
theorem claim_C4_theorem (removeLib : Bool) (cosd sind : ℚ → ℚ)
    (jw_type : Nat) (rot_len : ℚ) (facade_id : Nat) (defs : List RDef)
    (lines : List DsfLine) (jws : List RotJw) :
    ((remove_sam removeLib defs).2 = defs.any (remove_p removeLib)) ∧
    (main_tile_step removeLib cosd sind jw_type rot_len facade_id defs lines
        jws = none ↔ defs.any (remove_p removeLib) = false) := by
  refine ⟨renumber_ids_changed removeLib defs 0, ?_⟩
  unfold main_tile_step
  rw [show (remove_sam removeLib defs).2 = defs.any (remove_p removeLib) from
    renumber_ids_changed removeLib defs 0]
  cases h : defs.any (remove_p removeLib) <;> simp [h]

/-- Outcome of a main run tail: abort with an exit code (reporting the two
counts of the failed comparison) or completion with the renumbered id lists
of the rewritten tiles. -/
inductive RunResult where
  | fatal (exitCode : Nat) (dsfCount samCount : Nat)
  | completed (written : List (List ℤ))
deriving DecidableEq, Inhabited

/-- The end-of-matching tail of sam_2_native's main (lines 426-439): after
logging both totals, a jetway-count mismatch is fatal with exit code 2
reporting both counts, then a dock-count mismatch likewise — both BEFORE any
tile is rewritten; only with matching counts does the remove/rewrite loop
run. A tile is (n_jw, n_docks, defs); native Dsf.remove_sam (lines 271-287)
returns False when both counters are zero and otherwise removes exactly the
flagged defs, which is remove_sam with the library option off. -/
def native_main_tail (n_dsf_jw n_sam_jw n_dsf_docks n_sam_docks : Nat)
    (tiles : List (Nat × Nat × List RDef)) : RunResult :=
  if n_dsf_jw ≠ n_sam_jw then RunResult.fatal 2 n_dsf_jw n_sam_jw
  else if n_dsf_docks ≠ n_sam_docks then
    RunResult.fatal 2 n_dsf_docks n_sam_docks
  else RunResult.completed (tiles.filterMap (fun t =>
    if t.1 = 0 ∧ t.2.1 = 0 then none
    else some (remove_sam false t.2.2).1))

/-- The same point in sam_2_xp12's main (lines 504-513): both totals are
computed and logged ("Identified ... in .dsf files") but never compared — the
remove/rotunda/rewrite loop runs unconditionally, so the count parameters
influence nothing. -/
def xp12_main_tail (n_dsf_jw n_sam_jw n_dsf_docks n_sam_docks : Nat)
    (removeLib : Bool) (tiles : List (List RDef)) : RunResult :=
  RunResult.completed (tiles.filterMap (fun defs =>
    if (remove_sam removeLib defs).2 then some (remove_sam removeLib defs).1
    else none))

/-- C7 counterexample: with 1 matched jetway against 2 usable SAM jetway
definitions (a mismatch), the sam_2_xp12 main tail does NOT fail: it
completes and rewrites the tile whose def was flagged, contradicting the
claim that a count mismatch is fatal rather than silently continuing to
rewrite outputs. -/
theorem claim_C7_counterexample :
    xp12_main_tail 1 2 0 0 false [[⟨"objects/gate.obj", true, false⟩]] =
      RunResult.completed [[-1]] ∧ (1 : Nat) ≠ 2 := by
  exact ⟨rfl, by decide⟩

/-- C7 (amended): the count cross-check exists only in the sam_2_native
variant, where it is fatal (exit code 2, reporting both counts) before any
tile is rewritten: first the jetway totals, then the dock totals. The
sam_2_xp12 variant logs the totals and continues unconditionally. -/
theorem claim_C7_theorem (n_dsf_jw n_sam_jw n_dsf_docks n_sam_docks : Nat)
    (tiles : List (Nat × Nat × List RDef)) :
    (n_dsf_jw ≠ n_sam_jw →
      native_main_tail n_dsf_jw n_sam_jw n_dsf_docks n_sam_docks tiles =
        RunResult.fatal 2 n_dsf_jw n_sam_jw) ∧
    (n_dsf_jw = n_sam_jw → n_dsf_docks ≠ n_sam_docks →
      native_main_tail n_dsf_jw n_sam_jw n_dsf_docks n_sam_docks tiles =
        RunResult.fatal 2 n_dsf_docks n_sam_docks) := by
  constructor
  · intro h
    simp [native_main_tail, h]
  · intro h1 h2
    simp [native_main_tail, h1, h2]

/-- C7 witness: 1 matched jetway against 2 definitions aborts the native
run with exit code 2 reporting 1 and 2. -/
theorem claim_C7_witness :
    native_main_tail 1 2 0 0 [] = RunResult.fatal 2 1 2 :=
  (claim_C7_theorem 1 2 0 0 []).1 (by decide)

/-! ## Airport-record injector (sam_2_xp12.py lines 110-115, 518-526) -/

/-- A SAM jetway as consumed by the apt.dat rewriting loop: the fields read
by SAM_jw.apt_1500 plus whether jw.obj_ref is set. -/
structure AptJw where
  name : String
  lat : ℚ
  lon : ℚ
  jw_hdg : ℚ
  cab_hdg : ℚ
  length : ℚ
  lcode : ℤ
  matched : Bool
deriving DecidableEq, Inhabited

/-- An output line of the apt.dat rewriting loop: a copied original line, or
one of the two lines of the string SAM_jw.apt_1500 returns (lines 110-115) —
a comment naming the jetway, then the 1500 record with its numeric fields in
source order (the fixed-precision decimal rendering is out of scope). -/
inductive AptLine where
  | orig (s : String)
  | comment (name : String)
  | rec1500 (lat lon jwHdg : ℚ) (jwType : Nat) (lcode : ℤ)
      (jwHdg2 len cabHdg : ℚ)
deriving DecidableEq, Inhabited

/-- SAM_jw.apt_1500 (lines 110-115): the comment line `# 'name'` followed by
the 1500 record; jw heading normalized to [0,360), cab heading =
normalize(jw_hdg + cab_hdg). -/
def apt_1500 (jw_type : Nat) (jw : AptJw) : List AptLine :=
  [AptLine.comment jw.name,
   AptLine.rec1500 jw.lat jw.lon (normalize_hdg jw.jw_hdg) jw_type jw.lcode
     (normalize_hdg jw.jw_hdg) jw.length
     (normalize_hdg (jw.jw_hdg + jw.cab_hdg))]

/-- The insertion trigger of main line 522, l.find("99") == 0: the line TEXT
starts with the two characters "99" — a string-prefix check, not a
first-token check. -/
def line_is_99 (l : String) : Bool := ("99".toList).isPrefixOf l.toList

/-- The per-jetway emission condition of main line 524: matched
(obj_ref is not None) and lcode >= 0. -/
def emits (jw : AptJw) : Bool := jw.matched && decide (0 ≤ jw.lcode)

/-- The apt.dat rewriting loop of main (lines 518-526): immediately before
each line whose text starts with "99", write apt_1500 for every jetway that
is matched with lcode >= 0; every input line is copied in order. -/
def inject_jetways (jw_type : Nat) (jws : List AptJw) :
    List String → List AptLine
  | [] => []
  | l :: rest =>
    (if line_is_99 l then (jws.filter emits).flatMap (apt_1500 jw_type)
     else []) ++ (AptLine.orig l :: inject_jetways jw_type jws rest)

/-- C6 counterexample: one matched jetway with lcode 1, input lines
"990 OTHER" and "99". The records are inserted before BOTH lines (the
trigger is the two-character prefix "99", not the first token), and each
insertion is TWO lines — a comment naming the jetway and then the 1500
record — contradicting the claim that the record is a single line, inserted
only before lines whose first token is "99", with no other new line. -/
theorem claim_C6_counterexample :
    inject_jetways 2 [⟨"Gate 1", 49, 11, 90, 10, 15, 1, true⟩]
      ["990 OTHER", "99"] =
      [AptLine.comment ("Gate 1"),
       AptLine.rec1500 49 11 90 2 1 90 15 100,
       AptLine.orig ("990 OTHER"),
       AptLine.comment ("Gate 1"),
       AptLine.rec1500 49 11 90 2 1 90 15 100,
       AptLine.orig ("99")] := by
  have h90 : normalize_hdg 90 = 90 := by
    norm_num [normalize_hdg, fmodQ]
  have h100 : normalize_hdg (90 + 10) = 100 := by
    norm_num [normalize_hdg, fmodQ]
  simp [inject_jetways, apt_1500, emits, line_is_99, h90, h100]

/-- Extract the copied original line, if this output line is one. -/
def origOf : AptLine → Option String
  | AptLine.orig s => some s
  | _ => none

/-- Is this output line a 1500 jetway record? -/
def is_rec : AptLine → Bool
  | AptLine.rec1500 .. => true
  | _ => false

/-- The lines the rewriting loop produces for one input line, in normal
form: the inserted block (nonempty only for a "99"-prefixed line) followed
by the copied line. -/
def per_line_block (jw_type : Nat) (jws : List AptJw) (l : String) :
    List AptLine :=
  (if line_is_99 l then (jws.filter emits).flatMap (apt_1500 jw_type)
   else []) ++ [AptLine.orig l]

lemma emitted_block_no_orig (jw_type : Nat) (jws : List AptJw) :
    (jws.flatMap (apt_1500 jw_type)).filterMap origOf = [] := by
  induction jws with
  | nil => rfl
  | cons jw rest ih => simp [apt_1500, origOf, ih]

lemma emitted_block_rec_count (jw_type : Nat) (jws : List AptJw) :
    (jws.flatMap (apt_1500 jw_type)).countP is_rec = jws.length := by
  induction jws with
  | nil => rfl
  | cons jw rest ih => simp [apt_1500, is_rec, ih, List.countP_cons]

/-- C6 (amended): the loop's output is, per input line, the block of
apt_1500 emissions (inserted exactly before each line whose TEXT begins with
"99" — a prefix check, not a first-token check) followed by the copied line;
every input line is copied unchanged in order; each qualifying jetway
(matched and lcode >= 0, so never a negative lcode) contributes exactly one
1500 record — preceded by its comment line — per "99" line. -/
theorem claim_C6_theorem (jw_type : Nat) (jws : List AptJw)
    (lines : List String) :
    (inject_jetways jw_type jws lines =
      lines.flatMap (per_line_block jw_type jws)) ∧
    ((inject_jetways jw_type jws lines).filterMap origOf = lines) ∧
    ((inject_jetways jw_type jws lines).countP is_rec =
      (lines.countP line_is_99) * (jws.countP emits)) := by
  induction lines with
  | nil => exact ⟨rfl, rfl, by simp [inject_jetways]⟩
  | cons l rest ih =>
    obtain ⟨ih1, ih2, ih3⟩ := ih
    refine ⟨?_, ?_, ?_⟩
    · simp only [inject_jetways, List.flatMap_cons, per_line_block, ih1,
        List.append_assoc, List.singleton_append]
    · by_cases h : line_is_99 l = true
      · simp [inject_jetways, h, List.filterMap_append,
          emitted_block_no_orig, origOf, ih2]
      · simp [inject_jetways, h, origOf, ih2]
    · by_cases h : line_is_99 l = true
      · simp only [inject_jetways, h, if_true, List.countP_append,
          List.countP_cons, emitted_block_rec_count, ih3]
        simp [is_rec, ← List.countP_eq_length_filter]
        ring
      · simp [inject_jetways, h, is_rec, List.countP_cons, ih3]

/-! ## Tile text parsing (sam_2_xp12.py lines 220-250 and 152-158) -/

/-- One line of the dsf text as dispatched by Dsf.__init__: an OBJECT_DEF
line carrying the def name (line 239), an OBJECT / OBJECT_MSL / OBJECT_AGL
line carrying the typeIndex parsed from its second word (line 243; the rest
of the line is opaque here), or any other line. -/
inductive TxtLine where
  | odef (name : String)
  | oref (typeIndex : ℤ) (params : String)
  | other (s : String)
deriving DecidableEq, Inhabited

/-- Parser state: the ObjectDef records built so far — each keeps the id it
was constructed with (ObjectDef(obj_id, ...), where obj_id counts the defs)
— and the accepted object references. -/
structure ParseState where
  defs : List (Nat × String)
  refs : List (ℤ × String)
deriving DecidableEq, Inhabited

/-- Python list subscription xs[i], including the negative-index
semantics (xs[-k] is xs[len-k] when k <= len); out of range raises
IndexError, i.e. none. -/
def pyIdx {α : Type} (xs : List α) (i : ℤ) : Option α :=
  if 0 ≤ i then xs[i.toNat]?
  else if i.natAbs ≤ xs.length then xs[xs.length - i.natAbs]?
  else none

/-- One step of the parse loop of Dsf.__init__ (lines 236-250): an
OBJECT_DEF line appends ObjectDef(obj_id, name) with obj_id = number of defs
so far; an OBJECT* line subscripts the def list with the raw typeIndex
(an IndexError fails the parse) and ObjectRef.__init__ line 157 then asserts
id == obj.id (an AssertionError fails the parse); any other line is kept
as-is. -/
def parse_step (s : ParseState) : TxtLine → Option ParseState
  | TxtLine.odef name => some ⟨s.defs ++ [(s.defs.length, name)], s.refs⟩
  | TxtLine.oref i params =>
      match pyIdx s.defs i with
      | none => none
      | some d =>
          if (d.1 : ℤ) = i then some ⟨s.defs, s.refs ++ [(i, params)]⟩
          else none
  | TxtLine.other _ => some s

/-- The whole parse loop over the dsf text lines. -/
def parse_tile (lines : List TxtLine) : Option ParseState :=
  lines.foldlM parse_step ⟨[], []⟩

/-- The def-id invariant: each stored def carries its own position. -/
def ids_ok (s : ParseState) : Prop :=
  ∀ j, j < s.defs.length → (s.defs.getD j default).1 = j

lemma parse_step_ids_ok (s : ParseState) (l : TxtLine) (s' : ParseState)
    (hinv : ids_ok s) (h : parse_step s l = some s') : ids_ok s' := by
  cases l with
  | odef name =>
    simp only [parse_step, Option.some.injEq] at h
    subst h
    intro j hj
    simp only [List.length_append, List.length_singleton] at hj
    by_cases hlt : j < s.defs.length
    · rw [List.getD_eq_getElem?_getD, List.getElem?_append_left hlt]
      rw [← List.getD_eq_getElem?_getD]
      exact hinv j hlt
    · have hje : j = s.defs.length := by omega
      subst hje
      rw [List.getD_eq_getElem?_getD, List.getElem?_append_right (le_refl _)]
      simp
  | oref i params =>
    simp only [parse_step] at h
    cases hp : pyIdx s.defs i with
    | none => simp [hp] at h
    | some d =>
      simp only [hp] at h
      by_cases hid : (d.1 : ℤ) = i
      · rw [if_pos hid] at h
        injection h with h
        subst h
        exact hinv
      · rw [if_neg hid] at h
        exact absurd h (by simp)
  | other t =>
    simp only [parse_step, Option.some.injEq] at h
    subst h
    exact hinv

lemma foldlM_ids_ok :
    ∀ (lines : List TxtLine) (s0 s : ParseState),
    List.foldlM parse_step s0 lines = some s → ids_ok s0 → ids_ok s := by
  intro lines
  induction lines with
  | nil =>
    intro s0 s h h0
    simp only [List.foldlM_nil, Option.pure_def, Option.some.injEq] at h
    subst h
    exact h0
  | cons l rest ih =>
    intro s0 s h h0
    rw [List.foldlM_cons] at h
    cases hstep : parse_step s0 l with
    | none => rw [hstep] at h; exact absurd h (by simp)
    | some s1 =>
      rw [hstep] at h
      exact ih s1 s h (parse_step_ids_ok s0 l s1 h0 hstep)

lemma parse_tile_ids_ok (lines : List TxtLine) (s : ParseState)
    (h : parse_tile lines = some s) : ids_ok s :=
  foldlM_ids_ok lines ⟨[], []⟩ s h (fun j hj => absurd hj (by simp))

/-- C9: in any state reached by parsing, an OBJECT / OBJECT_MSL / OBJECT_AGL
line is accepted exactly when its raw typeIndex is a valid index into the
defs seen so far (0 <= typeIndex < number of defs): out-of-range indices
fail on the subscription, and in-range-but-negative indices (reachable via
Python's negative subscription) fail on the id assertion, so no reference
record is produced for them. -/
theorem claim_C9_theorem (lines : List TxtLine) (s : ParseState)
    (h : parse_tile lines = some s) (i : ℤ) (params : String) :
    (parse_step s (TxtLine.oref i params)).isSome ↔
      0 ≤ i ∧ i < (s.defs.length : ℤ) := by
  have hinv := parse_tile_ids_ok lines s h
  simp only [parse_step]
  constructor
  · intro hsome
    cases hp : pyIdx s.defs i with
    | none => simp [hp] at hsome
    | some d =>
      simp only [hp] at hsome
      by_cases hid : (d.1 : ℤ) = i
      · unfold pyIdx at hp
        by_cases hpos : 0 ≤ i
        · rw [if_pos hpos] at hp
          have hlt : i.toNat < s.defs.length := by
            by_contra hge
            rw [List.getElem?_eq_none (by omega)] at hp
            exact absurd hp (by simp)
          exact ⟨hpos, by omega⟩
        · rw [if_neg hpos] at hp
          by_cases hrange : i.natAbs ≤ s.defs.length
          · rw [if_pos hrange] at hp
            have hnz : 1 ≤ i.natAbs := by omega
            have hlt : s.defs.length - i.natAbs < s.defs.length := by omega
            have hd := hinv (s.defs.length - i.natAbs) hlt
            rw [List.getD_eq_getElem?_getD, hp] at hd
            simp only [Option.getD_some] at hd
            rw [hd] at hid
            omega
          · rw [if_neg hrange] at hp
            exact absurd hp (by simp)
      · rw [if_neg hid] at hsome
        exact absurd hsome (by simp)
  · intro ⟨hpos, hlt⟩
    have hltn : i.toNat < s.defs.length := by omega
    have hval : s.defs[i.toNat]? = some (s.defs.getD i.toNat default) := by
      rw [List.getD_eq_getElem?_getD]
      cases hq : s.defs[i.toNat]? with
      | none => rw [List.getElem?_eq_none_iff] at hq; omega
      | some v => rfl
    have hid := hinv i.toNat hltn
    unfold pyIdx
    rw [if_pos hpos, hval]
    have : ((s.defs.getD i.toNat default).1 : ℤ) = i := by
      rw [hid]; omega
    simp [this]
    rw [← List.getD_eq_getElem?_getD]
    exact this

/-- C9 witness: after parsing a single OBJECT_DEF, typeIndex 1 (forward /
out of range) is rejected and no reference record is produced. -/
theorem claim_C9_witness :
    ¬ ((parse_step ⟨[(0, "objects/x.obj")], []⟩
        (TxtLine.oref 1 ("p"))).isSome = true) := by
  intro hs
  have h := (claim_C9_theorem [TxtLine.odef ("objects/x.obj")]
    ⟨[(0, "objects/x.obj")], []⟩ rfl 1 ("p")).mp hs
  norm_num at h

end SamToXp12
